import Mathlib

/-!
Verification development for the PostgreSQL persistence layer of the
credential/access-control core (`src/database_plugins/postgres.rs`).

The Rust code is shallowly embedded: each database table becomes a Lean
structure for its rows, the database state becomes a `List` of rows, and each
`async fn` of the `DatabaseProvider` implementation becomes a pure Lean
function from the old state (plus its arguments) to its result, with fallible
operations returning `Except String`.  Timestamps are seconds since the epoch
as `Nat`; UUIDs are `Nat`; byte strings are `List Nat`.  Cryptographic
primitives that live outside this file tree (AES-256-GCM in
`EncryptedToken::new`/`decrypt`, the hashes of `AdminJwtManager`) are modelled
from the specification, as marked on each such definition.
-/

set_option linter.unusedVariables false

namespace Pierre

abbrev Timestamp := Nat

abbrev Uuid := Nat

abbrev Bytes := List Nat

/- ================= Token vault (crate::models, modelled from the spec) ========== -/

/-- Modelled from the spec: the AEAD ciphertext produced by AES-256-GCM.
`EncryptedToken::new` is not under `src/`; the spec requires an authenticated
symmetric cipher whose ciphertext is plaintext-length data plus an
authentication tag. -/
structure Ciphertext where
  data : Bytes
  tag : Nat
  deriving DecidableEq

/-- Plaintext OAuth token pair (crate::models::DecryptedToken). -/
structure DecryptedToken where
  access_token : Bytes
  refresh_token : Bytes
  expires_at : Timestamp
  scope : String
  deriving DecidableEq

/-- Encrypted OAuth token pair (crate::models::EncryptedToken): ciphertexts for
both halves, plus expiry, scope and the stored (non-secret) nonce. -/
structure EncryptedToken where
  access_token : Ciphertext
  refresh_token : Ciphertext
  expires_at : Timestamp
  scope : String
  nonce : Nat
  deriving DecidableEq

/-- Modelled from the spec: the keystream of the 256-bit-key AEAD cipher,
derived from key and nonce.  One-wayness of the real cipher is out of scope;
only the algebra (same key and nonce invert the stream) is modelled. -/
def keystream (key : Bytes) (nonce i : Nat) : Nat :=
  (key.getD (i % 32) 0 + nonce + i) % 256

/-- XOR a byte list against the keystream starting at position `i`. -/
def xorStream (key : Bytes) (nonce : Nat) : Nat → Bytes → Bytes
  | _, [] => []
  | i, b :: bs => (b ^^^ keystream key nonce i) :: xorStream key nonce (i + 1) bs

/-- Modelled from the spec: the GCM authentication tag, a deterministic
function of key, nonce and ciphertext. -/
def authTag (key : Bytes) (nonce : Nat) (ct : Bytes) : Nat :=
  key.foldl (· + ·) 0 + nonce * 31 + ct.foldl (fun a b => a * 257 + b) 0

/-- Encrypt a byte string: ciphertext data plus authentication tag. -/
def encryptBytes (key : Bytes) (nonce : Nat) (pt : Bytes) : Ciphertext :=
  let ct := xorStream key nonce 0 pt
  ⟨ct, authTag key nonce ct⟩

/-- Decrypt a byte string; fails when the authentication tag does not verify. -/
def decryptBytes (key : Bytes) (nonce : Nat) (c : Ciphertext) : Except String Bytes :=
  if authTag key nonce c.data = c.tag then Except.ok (xorStream key nonce 0 c.data)
  else Except.error "DecryptionError"

/-- Modelled from the spec: `EncryptedToken::new` — encrypts both token halves
under a 256-bit key with a fresh nonce (here an explicit argument, since the
embedding is pure); fails on a key of the wrong length. -/
def EncryptedToken.new (accessToken refreshToken : Bytes) (expiresAt : Timestamp)
    (scope : String) (key : Bytes) (nonce : Nat) : Except String EncryptedToken :=
  if key.length = 32 then
    Except.ok
      { access_token := encryptBytes key nonce accessToken
        refresh_token := encryptBytes key nonce refreshToken
        expires_at := expiresAt
        scope := scope
        nonce := nonce }
  else Except.error "Invalid key length"

/-- Modelled from the spec: `EncryptedToken::decrypt` — authenticated
decryption of both halves; fails with `DecryptionError` when a tag does not
verify, with no silent garbage plaintext. -/
def EncryptedToken.decrypt (e : EncryptedToken) (key : Bytes) : Except String DecryptedToken :=
  if key.length = 32 then
    match decryptBytes key e.nonce e.access_token, decryptBytes key e.nonce e.refresh_token with
    | Except.ok a, Except.ok r =>
        Except.ok { access_token := a, refresh_token := r, expires_at := e.expires_at, scope := e.scope }
    | Except.error msg, _ => Except.error msg
    | _, Except.error msg => Except.error msg
  else Except.error "Invalid key length"

/- ================= users table ========== -/

/-- A row of the `users` table, exactly the columns of the migration in
`migrate` (note: the table defines no `tier` and no `is_active` column). -/
structure UserRow where
  id : Uuid
  email : String
  display_name : Option String
  password_hash : String
  strava_access_token : Option Ciphertext
  strava_refresh_token : Option Ciphertext
  strava_expires_at : Option Timestamp
  strava_scope : Option String
  strava_nonce : Option Nat
  fitbit_access_token : Option Ciphertext
  fitbit_refresh_token : Option Ciphertext
  fitbit_expires_at : Option Timestamp
  fitbit_scope : Option String
  fitbit_nonce : Option Nat
  created_at : Timestamp
  last_active : Timestamp
  deriving DecidableEq

/-- crate::models::UserTier. -/
inductive UserTier
  | Starter
  | Professional
  | Enterprise
  deriving DecidableEq

/-- crate::models::User, as constructed by `get_user`/`get_user_by_email`. -/
structure User where
  id : Uuid
  email : String
  display_name : Option String
  password_hash : String
  tier : UserTier
  strava_token : Option DecryptedToken
  fitbit_token : Option DecryptedToken
  created_at : Timestamp
  last_active : Timestamp
  is_active : Bool
  deriving DecidableEq

/-- The tier computation of `get_user`/`get_user_by_email`:
`row.try_get("tier")` with fallback `"starter"`, then a string match. -/
def tierFromTryGet (tierColumn : Option String) : UserTier :=
  match tierColumn.getD "starter" with
  | "professional" => UserTier.Professional
  | "enterprise" => UserTier.Enterprise
  | _ => UserTier.Starter

/-- Build a `User` from a selected row.  The SELECT lists only
`id, email, display_name, password_hash, created_at, last_active`, and the
`users` table defines no `tier` column, so `row.try_get("tier")` always fails
and the fallback is taken: the tier argument of `tierFromTryGet` is `none`.
`is_active` is the hard-coded `true` of the source. -/
def userFromRow (row : UserRow) : User :=
  { id := row.id
    email := row.email
    display_name := row.display_name
    password_hash := row.password_hash
    tier := tierFromTryGet none
    strava_token := none
    fitbit_token := none
    created_at := row.created_at
    last_active := row.last_active
    is_active := true }

/-- `get_user`: SELECT ... FROM users WHERE id = $1 (fetch_optional). -/
def get_user (db : List UserRow) (userId : Uuid) : Option User :=
  (db.find? fun r => r.id == userId).map userFromRow

/-- `get_user_by_email`: SELECT ... FROM users WHERE email = $1. -/
def get_user_by_email (db : List UserRow) (email : String) : Option User :=
  (db.find? fun r => r.email == email).map userFromRow

/-- `update_strava_token`: encrypts the pair, then
UPDATE users SET strava_access_token = $1, strava_refresh_token = $2,
strava_expires_at = $3, strava_scope = $4, strava_nonce = $5 WHERE id = $6.
The scope column receives the plaintext `token.scope`. -/
def update_strava_token (db : List UserRow) (userId : Uuid)
    (accessToken refreshToken : Bytes) (expiresAt : Timestamp) (scope : String)
    (key : Bytes) (nonce : Nat) : Except String (List UserRow) :=
  match EncryptedToken.new accessToken refreshToken expiresAt scope key nonce with
  | Except.error e => Except.error e
  | Except.ok enc =>
      Except.ok (db.map fun r =>
        if r.id = userId then
          { r with
            strava_access_token := some enc.access_token
            strava_refresh_token := some enc.refresh_token
            strava_expires_at := some expiresAt
            strava_scope := some scope
            strava_nonce := some enc.nonce }
        else r)

/-- `get_strava_token`: SELECT the five strava columns
WHERE id = $1 AND strava_access_token IS NOT NULL (fetch_optional), then
decrypt and overwrite `expires_at`/`scope` from the row.  `row.get` on an
unexpectedly NULL companion column is a row-decoding failure. -/
def get_strava_token (db : List UserRow) (userId : Uuid) (key : Bytes) :
    Except String (Option DecryptedToken) :=
  match db.find? (fun r => r.id == userId && r.strava_access_token.isSome) with
  | none => Except.ok none
  | some r =>
      match r.strava_access_token, r.strava_refresh_token,
            r.strava_expires_at, r.strava_scope, r.strava_nonce with
      | some ca, some cr, some exp, some sc, some nce =>
          match EncryptedToken.decrypt ⟨ca, cr, exp, sc, nce⟩ key with
          | Except.error e => Except.error e
          | Except.ok d => Except.ok (some { d with expires_at := exp, scope := sc })
      | _, _, _, _, _ => Except.error "row decode failed"

/- ================= api_keys table ========== -/

/-- crate::api_keys::ApiKeyTier. -/
inductive ApiKeyTier
  | Trial
  | Starter
  | Professional
  | Enterprise
  deriving DecidableEq

/-- A row of the `api_keys` table (migration in `migrate`); `key_pfx` embeds
the `key_prefix` column and `tier` is the stored TEXT value. -/
structure ApiKeyRow where
  id : String
  user_id : Uuid
  name : String
  key_pfx : String
  key_hash : String
  description : Option String
  tier : String
  is_active : Bool
  rate_limit_requests : Nat
  rate_limit_window : Nat
  created_at : Timestamp
  expires_at : Option Timestamp
  last_used_at : Option Timestamp
  updated_at : Timestamp
  deriving DecidableEq

/-- crate::api_keys::ApiKey, as decoded from a row. -/
structure ApiKey where
  id : String
  user_id : Uuid
  name : String
  key_pfx : String
  key_hash : String
  description : Option String
  tier : ApiKeyTier
  is_active : Bool
  rate_limit_requests : Nat
  rate_limit_window : Nat
  created_at : Timestamp
  expires_at : Option Timestamp
  last_used_at : Option Timestamp
  updated_at : Timestamp
  deriving DecidableEq

/-- Tier decoding used by `get_api_key_by_prefix`: lowercase the stored text
and match, defaulting to `Trial`. -/
def apiKeyTierOfText (s : String) : ApiKeyTier :=
  match s.toLower with
  | "trial" => ApiKeyTier.Trial
  | "starter" => ApiKeyTier.Starter
  | "professional" => ApiKeyTier.Professional
  | "enterprise" => ApiKeyTier.Enterprise
  | _ => ApiKeyTier.Trial

/-- Row-to-struct decoding of `get_api_key_by_prefix`. -/
def rowToApiKey (r : ApiKeyRow) : ApiKey :=
  { id := r.id
    user_id := r.user_id
    name := r.name
    key_pfx := r.key_pfx
    key_hash := r.key_hash
    description := r.description
    tier := apiKeyTierOfText r.tier
    is_active := r.is_active
    rate_limit_requests := r.rate_limit_requests
    rate_limit_window := r.rate_limit_window
    created_at := r.created_at
    expires_at := r.expires_at
    last_used_at := r.last_used_at
    updated_at := r.updated_at }

/-- SQL `s LIKE p || '%'`: the string starts with the given leading segment. -/
def likePfx (pfx s : String) : Bool := List.isPrefixOf pfx.data s.data

/-- `get_api_key_by_prefix` (the name abbreviates the source symbol): SELECT
... FROM api_keys WHERE id LIKE $1 AND key_hash = $2 AND is_active = true,
with $1 bound to the presented prefix followed by `%`.  Note the WHERE clause:
the id must start with the prefix, the stored hash must equal the presented
hash, the key must be active — and `expires_at` is not consulted. -/
def get_api_key_by_pfx (db : List ApiKeyRow) (pfx keyHash : String) : Option ApiKey :=
  (db.find? fun r => likePfx pfx r.id && r.key_hash == keyHash && r.is_active).map rowToApiKey

/-- Spec-side predicate for claim C1: the presented credential has an active,
non-expired match in the store. -/
def nonExpiredB (now : Timestamp) (r : ApiKeyRow) : Bool :=
  match r.expires_at with
  | none => true
  | some e => decide (now ≤ e)

/-- Spec-side predicate for claim C1 (conjunction of lookup match, hash match,
active and non-expired). -/
def activeNonExpiredMatchB (pfx keyHash : String) (now : Timestamp) (r : ApiKeyRow) : Bool :=
  likePfx pfx r.id && r.key_hash == keyHash && r.is_active && nonExpiredB now r

/-- `deactivate_api_key`: UPDATE api_keys SET is_active = false
WHERE id = $1 AND user_id = $2; the call returns `Ok(())` whether or not any
row matched. -/
def deactivate_api_key : List ApiKeyRow → String → Uuid → Except String (List ApiKeyRow)
  | [], _, _ => Except.ok []
  | r :: rs, apiKeyId, userId =>
      match deactivate_api_key rs apiKeyId userId with
      | Except.ok rest =>
          Except.ok
            ((if r.id = apiKeyId ∧ r.user_id = userId then { r with is_active := false } else r)
              :: rest)
      | Except.error e => Except.error e

/-- The WHERE clause of `cleanup_expired_api_keys`:
expires_at IS NOT NULL AND expires_at < CURRENT_TIMESTAMP AND is_active = true. -/
def expiredActiveB (now : Timestamp) (r : ApiKeyRow) : Bool :=
  (match r.expires_at with
   | none => false
   | some e => decide (e < now)) && r.is_active

/-- `cleanup_expired_api_keys`: UPDATE api_keys SET is_active = false on every
row matching `expiredActiveB`, returning the new state and `rows_affected`. -/
def cleanup_expired_api_keys : List ApiKeyRow → Timestamp → List ApiKeyRow × Nat
  | [], _ => ([], 0)
  | r :: rs, now =>
      let p := cleanup_expired_api_keys rs now
      if expiredActiveB now r then ({ r with is_active := false } :: p.1, p.2 + 1)
      else (r :: p.1, p.2)

/- ================= api_key_usage table ========== -/

/-- A row of the `api_key_usage` table. -/
structure ApiKeyUsageRow where
  api_key_id : String
  timestamp : Timestamp
  tool_name : String
  response_time_ms : Option Nat
  status_code : Int
  error_message : Option String
  request_size_bytes : Option Nat
  response_size_bytes : Option Nat
  deriving DecidableEq

def daySeconds : Nat := 86400

/-- `CURRENT_DATE` as a timestamp: the start of the calendar day containing
`now` (UTC midnight). -/
def currentDateStart (now : Timestamp) : Timestamp := now / daySeconds * daySeconds

/-- `get_api_key_current_usage`:
SELECT COUNT(*) FROM api_key_usage WHERE api_key_id = $1 AND
timestamp >= CURRENT_DATE — an aggregate pass over the ledger. -/
def get_api_key_current_usage (db : List ApiKeyUsageRow) (apiKeyId : String)
    (now : Timestamp) : Nat :=
  db.foldl
    (fun acc r =>
      if r.api_key_id = apiKeyId ∧ currentDateStart now ≤ r.timestamp then acc + 1 else acc)
    0

/-- Modelled from the spec: sliding-window usage — the count of ledger rows
for the key with timestamp at or after `now` minus the configured window
length (the windowing semantics claimed for the rate ledger). -/
def slidingWindowUsage (db : List ApiKeyUsageRow) (apiKeyId : String)
    (now window : Timestamp) : Nat :=
  (db.filter fun r => decide (r.api_key_id = apiKeyId ∧ now - window ≤ r.timestamp)).length

/-- crate::api_keys::ApiKeyUsageStats, as filled in by
`get_api_key_usage_stats`.  `total_response_time_ms` receives the SQL AVG of
response times (floating point in the source; modelled with truncating
natural division over the non-null values), and `tool_usage` the literal
empty JSON object of the source. -/
structure ApiKeyUsageStats where
  api_key_id : String
  period_start : Timestamp
  period_end : Timestamp
  total_requests : Nat
  successful_requests : Nat
  failed_requests : Nat
  total_response_time_ms : Nat
  tool_usage : String
  deriving DecidableEq

/-- The WHERE clause of `get_api_key_usage_stats`:
api_key_id = $1 AND timestamp >= $2 AND timestamp <= $3. -/
def inStatsRange (apiKeyId : String) (startDate endDate : Timestamp) (r : ApiKeyUsageRow) : Prop :=
  r.api_key_id = apiKeyId ∧ startDate ≤ r.timestamp ∧ r.timestamp ≤ endDate

instance (apiKeyId : String) (s e : Timestamp) (r : ApiKeyUsageRow) :
    Decidable (inStatsRange apiKeyId s e r) := by
  unfold inStatsRange; infer_instance

/-- Accumulator of the single aggregate pass of `get_api_key_usage_stats`:
COUNT(*), the two conditional counts, the AVG components for
response_time_ms, and the two SUMs. -/
structure UsageAgg where
  total : Nat
  succ : Nat
  failed : Nat
  time_sum : Nat
  time_cnt : Nat
  req_bytes : Nat
  resp_bytes : Nat
  deriving DecidableEq

/-- One row of the aggregate pass: COUNT(*) increments; successful_requests
counts `status_code >= 200 AND status_code < 300`; failed_requests counts
`status_code >= 400`; AVG/SUM accumulate the non-null numeric columns. -/
def aggStep (a : UsageAgg) (r : ApiKeyUsageRow) : UsageAgg :=
  { total := a.total + 1
    succ := a.succ + (if 200 ≤ r.status_code ∧ r.status_code < 300 then 1 else 0)
    failed := a.failed + (if 400 ≤ r.status_code then 1 else 0)
    time_sum := a.time_sum + r.response_time_ms.getD 0
    time_cnt := a.time_cnt + (if r.response_time_ms.isSome then 1 else 0)
    req_bytes := a.req_bytes + r.request_size_bytes.getD 0
    resp_bytes := a.resp_bytes + r.response_size_bytes.getD 0 }

/-- `get_api_key_usage_stats`: a single aggregate query over the rows of the
key inside the closed time range. -/
def get_api_key_usage_stats (db : List ApiKeyUsageRow) (apiKeyId : String)
    (startDate endDate : Timestamp) : ApiKeyUsageStats :=
  let agg := db.foldl
    (fun a r => if inStatsRange apiKeyId startDate endDate r then aggStep a r else a)
    ⟨0, 0, 0, 0, 0, 0, 0⟩
  { api_key_id := apiKeyId
    period_start := startDate
    period_end := endDate
    total_requests := agg.total
    successful_requests := agg.succ
    failed_requests := agg.failed
    total_response_time_ms := agg.time_sum / max agg.time_cnt 1
    tool_usage := "\x7b\x7d" }

/- ================= request logs (dashboard) ========== -/

/-- Modelled from the spec: crate::dashboard_routes::RequestLog is outside
`src/`; its fields follow the columns selected by `get_request_logs`. -/
structure RequestLog where
  api_key_id : String
  timestamp : Timestamp
  tool_name : String
  response_time_ms : Option Nat
  status_code : Int
  error_message : Option String
  request_size_bytes : Option Nat
  response_size_bytes : Option Nat
  deriving DecidableEq

/-- `get_request_logs`: the source assembles a filter query string and a
parameter list from the five optional filters, then discards both and returns
`Ok(vec![])` ("For now, return empty vec as implementing dynamic query
building is complex").  The stored ledger is never queried. -/
def get_request_logs (db : List ApiKeyUsageRow) (apiKeyId : Option String)
    (startTime endTime : Option Timestamp) (statusFilter toolFilter : Option String) :
    Except String (List RequestLog) :=
  let q0 := "SELECT api_key_id, timestamp, tool_name, response_time_ms, status_code, " ++
    "error_message, request_size_bytes, response_size_bytes, ip_address, user_agent " ++
    "FROM api_key_usage WHERE 1=1"
  let q1 := match apiKeyId with
    | some _ => q0 ++ " AND api_key_id = $1"
    | none => q0
  let q2 := match startTime with
    | some _ => q1 ++ " AND timestamp >= $n"
    | none => q1
  let q3 := match endTime with
    | some _ => q2 ++ " AND timestamp <= $n"
    | none => q2
  let q4 := match statusFilter with
    | some _ => q3 ++ " AND status_code::text LIKE $n"
    | none => q3
  let q5 := match toolFilter with
    | some _ => q4 ++ " AND tool_name ILIKE $n"
    | none => q4
  let unusedQuery := q5 ++ " ORDER BY timestamp DESC LIMIT 1000"
  Except.ok []

/- ================= A2A tasks ========== -/

/-- crate::a2a::protocol::TaskStatus (declared outside `src/`, used here only
as an argument type). -/
inductive TaskStatus
  | pending
  | running
  | completed
  | failed
  deriving DecidableEq

/-- The error message of every unimplemented A2A method of the PostgreSQL
backend. -/
def a2aNotImplementedMsg : String := "PostgreSQL A2A methods not yet fully implemented"

/-- `create_a2a_task`: the PostgreSQL implementation ignores its arguments and
always fails. -/
def create_a2a_task (clientId : String) (sessionId : Option String) (taskType : String)
    (inputData : String) : Except String String :=
  Except.error a2aNotImplementedMsg

/-- `update_a2a_task_status`: the PostgreSQL implementation ignores its
arguments and always fails. -/
def update_a2a_task_status (taskId : String) (status : TaskStatus)
    (result : Option String) (errorMsg : Option String) : Except String Unit :=
  Except.error a2aNotImplementedMsg

/- ================= admin_tokens table ========== -/

/-- crate::admin::models::CreateAdminTokenRequest (declared outside `src/`;
fields as consumed by `create_admin_token`). -/
structure CreateAdminTokenRequest where
  service_name : String
  service_description : Option String
  permissions : Option (List String)
  is_super_admin : Bool
  expires_in_days : Option Nat
  deriving DecidableEq

/-- A row of the `admin_tokens` table, restricted to the columns
`create_admin_token` inserts; `token_pfx` embeds the `token_prefix` column. -/
structure AdminTokenRow where
  id : String
  service_name : String
  service_description : Option String
  token_hash : String
  token_pfx : String
  jwt_secret_hash : String
  permissions : String
  is_super_admin : Bool
  is_active : Bool
  created_at : Timestamp
  expires_at : Option Timestamp
  usage_count : Nat
  deriving DecidableEq

/-- crate::admin::models::GeneratedAdminToken: the value returned — once — by
`create_admin_token`, carrying the plaintext signed token. -/
structure GeneratedAdminToken where
  token_id : String
  service_name : String
  jwt_token : String
  token_pfx : String
  permissions : List String
  is_super_admin : Bool
  expires_at : Option Timestamp
  created_at : Timestamp
  deriving DecidableEq

/-- Modelled from the spec: `AdminPermissions::super_admin()` — the preset
implying every capability. -/
def superAdminPermissions : List String :=
  ["provision_keys", "revoke_keys", "list_keys", "view_usage", "manage_admin_tokens"]

/-- Modelled from the spec: `AdminPermissions::default_admin()` — the default
preset (the migration defaults the column to `["provision_keys"]`). -/
def defaultAdminPermissions : List String := ["provision_keys"]

/-- Modelled from the spec: `AdminPermissions::to_json` — the TEXT encoding of
the permission list stored in the `permissions` column. -/
def permissionsToJson (perms : List String) : String :=
  "[" ++ String.intercalate "," (perms.map fun p => "\"" ++ p ++ "\"") ++ "]"

/-- Modelled from the spec: `AdminJwtManager::hash_token_for_storage` — a
one-way hash of the issued signed token, kept abstract as a tagged injective
encoding; one-wayness itself is out of scope of the embedding. -/
def hash_token_for_storage (t : String) : String := "tkhash:" ++ t

/-- Modelled from the spec: `AdminJwtManager::hash_secret` — a hash of the
per-token JWT-signing secret, derived from the secret alone and by a
different tagged encoding than the token hash. -/
def hash_secret (s : String) : String := "sechash:" ++ s

/-- Modelled from the spec: `AdminJwtManager::generate_token` — a signed token
embedding token id, service name, permissions, super-admin flag and expiry,
with a trailing signature component that is a function of the payload and the
per-token secret (one-wayness of the real signature is out of scope). -/
def signedJwtToken (tokenId serviceName : String) (perms : List String)
    (superAdmin : Bool) (expiresAt : Option Timestamp) (secret : String) : String :=
  "jwtheader." ++ tokenId ++ "." ++ serviceName ++ "." ++ String.intercalate "," perms ++ "."
    ++ (if superAdmin then "super" else "std") ++ "." ++ toString (expiresAt.getD 0)
    ++ ".sig-" ++ secret

/-- Modelled from the spec: `AdminJwtManager::generate_token_prefix` — the
short non-secret leading segment of the token used to narrow lookups. -/
def tokenPfxOf (t : String) : String := String.mk (t.data.take 12)

/-- The permission resolution of `create_admin_token`: the explicit list when
present, else the super-admin or default preset. -/
def resolvePermissions (request : CreateAdminTokenRequest) : List String :=
  match request.permissions with
  | some ps => ps
  | none =>
      if request.is_super_admin then superAdminPermissions else defaultAdminPermissions

/-- The expiry resolution of `create_admin_token`: now plus the requested
number of days, when present. -/
def resolveExpiry (request : CreateAdminTokenRequest) (now : Timestamp) : Option Timestamp :=
  request.expires_in_days.map fun d => now + d * daySeconds

/-- `create_admin_token`: generates the token id from a fresh UUID, signs a
JWT with a fresh per-token secret (both randoms are explicit arguments in the
pure embedding), INSERTs a row holding the token hash, token prefix and
JWT-secret hash, and returns the `GeneratedAdminToken` carrying the plaintext
signed token. -/
def create_admin_token (request : CreateAdminTokenRequest) (uuid : String)
    (jwtSecret : String) (now : Timestamp) : AdminTokenRow × GeneratedAdminToken :=
  let tokenId := "admin_" ++ uuid
  let perms := resolvePermissions request
  let expiresAt := resolveExpiry request now
  let jwtToken := signedJwtToken tokenId request.service_name perms
    request.is_super_admin expiresAt jwtSecret
  let row : AdminTokenRow :=
    { id := tokenId
      service_name := request.service_name
      service_description := request.service_description
      token_hash := hash_token_for_storage jwtToken
      token_pfx := tokenPfxOf jwtToken
      jwt_secret_hash := hash_secret jwtSecret
      permissions := permissionsToJson perms
      is_super_admin := request.is_super_admin
      is_active := true
      created_at := now
      expires_at := expiresAt
      usage_count := 0 }
  (row,
    { token_id := tokenId
      service_name := request.service_name
      jwt_token := jwtToken
      token_pfx := tokenPfxOf jwtToken
      permissions := perms
      is_super_admin := request.is_super_admin
      expires_at := expiresAt
      created_at := now })

/- ================= helper lemmas ========== -/

/-- A counting fold (SQL `COUNT(*)` with a WHERE condition) equals the length
of the corresponding filter. -/
theorem foldl_if_count {α : Type} (p : α → Prop) [DecidablePred p] (l : List α) (acc : Nat) :
    l.foldl (fun a r => if p r then a + 1 else a) acc
      = acc + (l.filter fun r => decide (p r)).length := by
  induction l generalizing acc with
  | nil => simp
  | cons x xs ih =>
      by_cases h : p x
      · simp only [List.foldl_cons, if_pos h, List.filter_cons, decide_eq_true h, ih]
        simp
        omega
      · simp only [List.foldl_cons, if_neg h, List.filter_cons, decide_eq_false h, ih]
        simp

/-- A deactivated key row never matches the expiry-sweep WHERE clause again. -/
theorem expiredActiveB_deactivated (now : Timestamp) (r : ApiKeyRow) :
    expiredActiveB now { r with is_active := false } = false := by
  simp [expiredActiveB]

/-- XORing against the same keystream twice is the identity. -/
theorem xorStream_involutive (key : Bytes) (nonce : Nat) (i : Nat) (pt : Bytes) :
    xorStream key nonce i (xorStream key nonce i pt) = pt := by
  induction pt generalizing i with
  | nil => rfl
  | cons b bs ih => simp [xorStream, Nat.xor_cancel_right, ih]

/-- Authenticated decryption inverts encryption under the same key and nonce. -/
theorem decryptBytes_encryptBytes (key : Bytes) (nonce : Nat) (pt : Bytes) :
    decryptBytes key nonce (encryptBytes key nonce pt) = Except.ok pt := by
  simp [decryptBytes, encryptBytes, xorStream_involutive]

/- ================= claim theorems ========== -/

/-- Claim C10: for every combination of filter arguments and every stored
ledger, `get_request_logs` returns the empty list; the result does not
depend on the stored usage records. -/
theorem c10_request_logs_always_empty (db : List ApiKeyUsageRow) (apiKeyId : Option String)
    (startTime endTime : Option Timestamp) (statusFilter toolFilter : Option String) :
    get_request_logs db apiKeyId startTime endTime statusFilter toolFilter = Except.ok [] := rfl

/-- Claim C8: the A2A task lifecycle of the claim does not hold in this
backend — both submitting a task and any status transition always fail with
the not-implemented error; no task is ever created in the Pending state. -/
theorem c8_a2a_task_methods_always_error :
    create_a2a_task "client_1" none "fitness_analysis" "\x7b\x7d" = Except.error a2aNotImplementedMsg ∧
    update_a2a_task_status "task_1" TaskStatus.running none none
      = Except.error a2aNotImplementedMsg :=
  ⟨rfl, rfl⟩

/-- Concrete API-key row owned by user 1, used as the C3 counterexample
input. -/
def c3Row : ApiKeyRow :=
  { id := "key_1"
    user_id := 1
    name := "ci"
    key_pfx := "pk_live_"
    key_hash := "h3"
    description := none
    tier := "starter"
    is_active := true
    rate_limit_requests := 1000
    rate_limit_window := 2592000
    created_at := 0
    expires_at := none
    last_used_at := none
    updated_at := 0 }

/-- Claim C3 (counterexample): revoking key `key_1` (owned by user 1) on
behalf of requesting user 2 returns success and leaves the key active —
it does not fail with Unauthorized. -/
theorem c3_revoke_nonowner_counterexample :
    deactivate_api_key [c3Row] "key_1" 2 = Except.ok [c3Row] ∧ c3Row.is_active = true := by
  constructor
  · rfl
  · rfl

/-- Claim C3 (amended): revoking never fails; it deactivates exactly the rows
matching both the key id and the requesting user id, and on an owner mismatch
it silently succeeds with no effect (no Unauthorized error is produced). -/
theorem c3_revoke_updates_owned_and_never_fails (db : List ApiKeyRow) (apiKeyId : String)
    (userId : Uuid) :
    deactivate_api_key db apiKeyId userId =
      Except.ok (db.map fun r =>
        if r.id = apiKeyId ∧ r.user_id = userId then { r with is_active := false } else r) := by
  induction db with
  | nil => rfl
  | cons r rs ih => simp [deactivate_api_key, ih]

/-- Claim C6: the expiry sweep returns exactly the number of active keys whose
expiry is strictly in the past, deactivates exactly those rows (all others are
unchanged), and is idempotent: run again on its own output at the same
instant it deactivates nothing, returns zero, and leaves every row unchanged. -/
theorem c6_expire_sweep_exact_and_idempotent (db : List ApiKeyRow) (now : Timestamp) :
    (cleanup_expired_api_keys db now).2 = db.countP (expiredActiveB now) ∧
    (cleanup_expired_api_keys db now).1 =
      db.map (fun r => if expiredActiveB now r then { r with is_active := false } else r) ∧
    cleanup_expired_api_keys (cleanup_expired_api_keys db now).1 now =
      ((cleanup_expired_api_keys db now).1, 0) := by
  induction db with
  | nil => exact ⟨rfl, rfl, rfl⟩
  | cons r rs ih =>
      obtain ⟨ih1, ih2, ih3⟩ := ih
      by_cases h : expiredActiveB now r = true
      · refine ⟨?_, ?_, ?_⟩
        · simp [cleanup_expired_api_keys, h, ih1, List.countP_cons]
        · simp [cleanup_expired_api_keys, h, ih2]
        · simp [cleanup_expired_api_keys, h, expiredActiveB_deactivated, ih3]
      · refine ⟨?_, ?_, ?_⟩
        · simp [cleanup_expired_api_keys, h, ih1, List.countP_cons]
        · simp [cleanup_expired_api_keys, h, ih2]
        · simp [cleanup_expired_api_keys, h, ih3]

/-- Concrete usage row for the C2 counterexample: a request made earlier on
the same calendar day, but longer than the configured window ago. -/
def c2Row : ApiKeyUsageRow :=
  { api_key_id := "k1"
    timestamp := 86500
    tool_name := "get_activities"
    response_time_ms := some 20
    status_code := 200
    error_message := none
    request_size_bytes := some 100
    response_size_bytes := some 1000 }

/-- Claim C2 (counterexample): for a key whose configured window length is 60
seconds, at time 87400 the stored query counts the row stamped 86500 (it is
after midnight 86400) although it is outside the sliding window starting at
87340 — so current usage is not the sliding-window count. -/
theorem c2_current_usage_counterexample :
    get_api_key_current_usage [c2Row] "k1" 87400 = 1 ∧
    slidingWindowUsage [c2Row] "k1" 87400 60 = 0 := by
  constructor
  · rfl
  · rfl

/-- Claim C2 (amended): for every API key and query time, current usage is the
count of usage-ledger rows for that key with timestamp at or after the start
of the current calendar day (UTC midnight), regardless of the key's
configured window length — a fixed-calendar-day window, not a sliding one. -/
theorem c2_current_usage_counts_calendar_day (db : List ApiKeyUsageRow) (apiKeyId : String)
    (now : Timestamp) :
    get_api_key_current_usage db apiKeyId now =
      (db.filter fun r =>
        decide (r.api_key_id = apiKeyId ∧ currentDateStart now ≤ r.timestamp)).length := by
  unfold get_api_key_current_usage
  simpa using
    foldl_if_count (fun r => r.api_key_id = apiKeyId ∧ currentDateStart now ≤ r.timestamp) db 0

/-- Concrete API-key row for the C1 counterexample: active, correct hash,
expired at time 50. -/
def c1ExpiredRow : ApiKeyRow :=
  { id := "pk_live_abc123"
    user_id := 1
    name := "ci"
    key_pfx := "pk_live_"
    key_hash := "h1"
    description := none
    tier := "starter"
    is_active := true
    rate_limit_requests := 1000
    rate_limit_window := 2592000
    created_at := 0
    expires_at := some 50
    last_used_at := none
    updated_at := 0 }

/-- Claim C1 (counterexample): at time 100 the store holds no active,
non-expired match for the presented credential (the only candidate expired at
time 50), yet verification succeeds — expiry is never consulted by the
lookup. -/
theorem c1_verify_expired_counterexample :
    (get_api_key_by_pfx [c1ExpiredRow] "pk_live_" "h1").isSome = true ∧
    ([c1ExpiredRow].all fun r => !activeNonExpiredMatchB "pk_live_" "h1" 100 r) = true := by
  constructor
  · rfl
  · rfl

/-- Claim C1 (amended): verification looks the key up by its non-secret
prefix (matching the leading segment of the stored key id) together with the
hash of the presented secret, and succeeds exactly when a matching active key
exists; expiry is not checked, so an expired but still-active key verifies. -/
theorem c1_verify_succeeds_iff_active_hash_match (db : List ApiKeyRow) (pfx keyHash : String) :
    (get_api_key_by_pfx db pfx keyHash).isSome = true ↔
      ∃ r ∈ db, likePfx pfx r.id = true ∧ r.key_hash = keyHash ∧ r.is_active = true := by
  simp only [get_api_key_by_pfx, Option.isSome_map', List.find?_isSome,
    Bool.and_eq_true, beq_iff_eq]
  constructor
  · rintro ⟨r, hr, ⟨⟨h1, h2⟩, h3⟩⟩
    exact ⟨r, hr, h1, h2, h3⟩
  · rintro ⟨r, hr, h1, h2, h3⟩
    exact ⟨r, hr, ⟨⟨h1, h2⟩, h3⟩⟩

/-- The three counters of the aggregate pass of `get_api_key_usage_stats`,
relative to an arbitrary starting accumulator. -/
theorem usageAgg_fold_counts (apiKeyId : String) (s e : Timestamp)
    (db : List ApiKeyUsageRow) (a : UsageAgg) :
    (db.foldl (fun a r => if inStatsRange apiKeyId s e r then aggStep a r else a) a).total
        = a.total + (db.filter fun r => decide (inStatsRange apiKeyId s e r)).length ∧
    (db.foldl (fun a r => if inStatsRange apiKeyId s e r then aggStep a r else a) a).succ
        = a.succ + (db.filter fun r =>
            decide (inStatsRange apiKeyId s e r
              ∧ 200 ≤ r.status_code ∧ r.status_code < 300)).length ∧
    (db.foldl (fun a r => if inStatsRange apiKeyId s e r then aggStep a r else a) a).failed
        = a.failed + (db.filter fun r =>
            decide (inStatsRange apiKeyId s e r ∧ 400 ≤ r.status_code)).length := by
  induction db generalizing a with
  | nil => simp
  | cons x xs ih =>
      obtain ⟨t1, t2, t3⟩ := ih (if inStatsRange apiKeyId s e x then aggStep a x else a)
      by_cases h : inStatsRange apiKeyId s e x
      · refine ⟨?_, ?_, ?_⟩
        · simp only [List.foldl_cons, if_pos h] at t1 ⊢
          rw [t1]
          simp [aggStep, h]
          omega
        · simp only [List.foldl_cons, if_pos h] at t2 ⊢
          rw [t2]
          by_cases hs : 200 ≤ x.status_code ∧ x.status_code < 300
          · simp [aggStep, h, hs, List.filter_cons]
            omega
          · simp [aggStep, h, hs, List.filter_cons]
        · simp only [List.foldl_cons, if_pos h] at t3 ⊢
          rw [t3]
          by_cases hf : 400 ≤ x.status_code
          · simp [aggStep, h, hf, List.filter_cons]
            omega
          · simp [aggStep, h, hf, List.filter_cons]
      · refine ⟨?_, ?_, ?_⟩
        · simp only [List.foldl_cons, if_neg h] at t1 ⊢
          rw [t1]
          simp [h, List.filter_cons]
        · simp only [List.foldl_cons, if_neg h] at t2 ⊢
          rw [t2]
          simp [h, List.filter_cons]
        · simp only [List.foldl_cons, if_neg h] at t3 ⊢
          rw [t3]
          simp [h, List.filter_cons]

/-- Claim C5: the usage-statistics aggregation is a single pass over exactly
the rows of the key inside the closed time range; a row counts as successful
exactly when its status code is in [200,300) and as failed exactly when its
status code is at least 400, and the total is the number of rows in range. -/
theorem c5_usage_stats_classification (db : List ApiKeyUsageRow) (apiKeyId : String)
    (startDate endDate : Timestamp) :
    (get_api_key_usage_stats db apiKeyId startDate endDate).total_requests
        = (db.filter fun r => decide (inStatsRange apiKeyId startDate endDate r)).length ∧
    (get_api_key_usage_stats db apiKeyId startDate endDate).successful_requests
        = (db.filter fun r =>
            decide (inStatsRange apiKeyId startDate endDate r
              ∧ 200 ≤ r.status_code ∧ r.status_code < 300)).length ∧
    (get_api_key_usage_stats db apiKeyId startDate endDate).failed_requests
        = (db.filter fun r =>
            decide (inStatsRange apiKeyId startDate endDate r ∧ 400 ≤ r.status_code)).length := by
  obtain ⟨t1, t2, t3⟩ := usageAgg_fold_counts apiKeyId startDate endDate db ⟨0, 0, 0, 0, 0, 0, 0⟩
  exact ⟨by simpa [get_api_key_usage_stats] using t1,
    by simpa [get_api_key_usage_stats] using t2,
    by simpa [get_api_key_usage_stats] using t3⟩

/-- Claim C9: both `get_user` and `get_user_by_email` return users whose tier
is Starter and whose active flag is true, for every stored database state:
the SELECT lists no `tier` column and the `users` table defines none, so the
tier fallback is always taken and `is_active` is hard-coded. -/
theorem c9_user_always_starter_and_active (db : List UserRow) (userId : Uuid)
    (email : String) (u v : User)
    (hu : get_user db userId = some u) (hv : get_user_by_email db email = some v) :
    u.tier = UserTier.Starter ∧ u.is_active = true ∧
    v.tier = UserTier.Starter ∧ v.is_active = true := by
  obtain ⟨r1, _, h1⟩ := Option.map_eq_some'.mp hu
  obtain ⟨r2, _, h2⟩ := Option.map_eq_some'.mp hv
  refine ⟨?_, ?_, ?_, ?_⟩
  · rw [← h1]; rfl
  · rw [← h1]; rfl
  · rw [← h2]; rfl
  · rw [← h2]; rfl

/-- Concrete users-table row for the C9 witness. -/
def c9Row : UserRow :=
  { id := 1
    email := "ada@example.com"
    display_name := none
    password_hash := "pw"
    strava_access_token := none
    strava_refresh_token := none
    strava_expires_at := none
    strava_scope := none
    strava_nonce := none
    fitbit_access_token := none
    fitbit_refresh_token := none
    fitbit_expires_at := none
    fitbit_scope := none
    fitbit_nonce := none
    created_at := 0
    last_active := 0 }

/-- Witness for claim C9 at a concrete one-row database. -/
theorem c9_user_always_starter_and_active_witness :
    (userFromRow c9Row).tier = UserTier.Starter ∧ (userFromRow c9Row).is_active = true ∧
    (userFromRow c9Row).tier = UserTier.Starter ∧ (userFromRow c9Row).is_active = true :=
  c9_user_always_starter_and_active [c9Row] 1 "ada@example.com"
    (userFromRow c9Row) (userFromRow c9Row) (by rfl) (by rfl)

/-- After an UPDATE that rewrites exactly the rows with the given user id and
leaves a present access token on them, the SELECT of `get_strava_token` finds
the rewritten version of some stored row with that id. -/
theorem find_strava_after_update (db : List UserRow) (userId : Uuid) (g : UserRow → UserRow)
    (hg_eq : ∀ r, r.id ≠ userId → g r = r)
    (hid : ∀ r, (g r).id = r.id)
    (hsome : ∀ r, r.id = userId → (g r).strava_access_token.isSome = true)
    (hmem : ∃ r ∈ db, r.id = userId) :
    ∃ r0, r0 ∈ db ∧ r0.id = userId ∧
      (db.map g).find? (fun r => r.id == userId && r.strava_access_token.isSome)
        = some (g r0) := by
  induction db with
  | nil => simp at hmem
  | cons r rs ih =>
      by_cases h : r.id = userId
      · refine ⟨r, List.mem_cons_self r rs, h, ?_⟩
        have hp : ((g r).id == userId && (g r).strava_access_token.isSome) = true := by
          rw [hid r, hsome r h]
          simp [h]
        simp [List.find?, hp]
      · have hmem2 : ∃ x ∈ rs, x.id = userId := by
          rcases hmem with ⟨x, hx, hxid⟩
          rcases List.mem_cons.mp hx with h1 | h1
          · exact absurd (h1 ▸ hxid) h
          · exact ⟨x, h1, hxid⟩
        obtain ⟨r0, hr0, hr0id, hfind⟩ := ih hmem2
        refine ⟨r0, List.mem_cons_of_mem r hr0, hr0id, ?_⟩
        have hp : ((g r).id == userId && (g r).strava_access_token.isSome) = false := by
          rw [hg_eq r h]
          simp [h]
        simp [List.find?, hp, hfind]

/-- Claim C4: storing a provider token pair (encrypting under a valid 256-bit
key) and reading it back decrypts to the original pair — the same access
token, refresh token, expiry and scope — for every database holding the user. -/
theorem c4_store_then_read_token_roundtrip (db : List UserRow) (userId : Uuid)
    (accessToken refreshToken : Bytes) (expiresAt : Timestamp) (scope : String)
    (key : Bytes) (nonce : Nat)
    (hkey : key.length = 32) (hmem : ∃ r ∈ db, r.id = userId) :
    ∃ db2,
      update_strava_token db userId accessToken refreshToken expiresAt scope key nonce
        = Except.ok db2 ∧
      get_strava_token db2 userId key
        = Except.ok (some
            { access_token := accessToken
              refresh_token := refreshToken
              expires_at := expiresAt
              scope := scope }) := by
  have hnew : EncryptedToken.new accessToken refreshToken expiresAt scope key nonce
      = Except.ok
          { access_token := encryptBytes key nonce accessToken
            refresh_token := encryptBytes key nonce refreshToken
            expires_at := expiresAt
            scope := scope
            nonce := nonce } := by
    simp [EncryptedToken.new, hkey]
  refine ⟨db.map fun r =>
      if r.id = userId then
        { r with
          strava_access_token := some (encryptBytes key nonce accessToken)
          strava_refresh_token := some (encryptBytes key nonce refreshToken)
          strava_expires_at := some expiresAt
          strava_scope := some scope
          strava_nonce := some nonce }
      else r, ?_, ?_⟩
  · unfold update_strava_token
    rw [hnew]
  · obtain ⟨r0, hr0mem, hr0id, hfind⟩ := find_strava_after_update db userId
      (fun r =>
        if r.id = userId then
          { r with
            strava_access_token := some (encryptBytes key nonce accessToken)
            strava_refresh_token := some (encryptBytes key nonce refreshToken)
            strava_expires_at := some expiresAt
            strava_scope := some scope
            strava_nonce := some nonce }
        else r)
      (fun r hr => by simp [hr])
      (fun r => by by_cases h : r.id = userId <;> simp [h])
      (fun r hr => by simp [hr])
      hmem
    unfold get_strava_token
    have hmapeq :
        (db.map fun r =>
          if r.id = userId then
            { r with
              strava_access_token := some (encryptBytes key nonce accessToken)
              strava_refresh_token := some (encryptBytes key nonce refreshToken)
              strava_expires_at := some expiresAt
              strava_scope := some scope
              strava_nonce := some nonce }
          else r).find? (fun r => r.id == userId && r.strava_access_token.isSome)
        = some
            { r0 with
              strava_access_token := some (encryptBytes key nonce accessToken)
              strava_refresh_token := some (encryptBytes key nonce refreshToken)
              strava_expires_at := some expiresAt
              strava_scope := some scope
              strava_nonce := some nonce } := by
      rw [hfind]
      simp [hr0id]
    rw [hmapeq]
    simp [EncryptedToken.decrypt, hkey, decryptBytes_encryptBytes]

/-- Concrete users-table row for the C4 witness. -/
def c4Row : UserRow :=
  { id := 7
    email := "bob@example.com"
    display_name := none
    password_hash := "pw"
    strava_access_token := none
    strava_refresh_token := none
    strava_expires_at := none
    strava_scope := none
    strava_nonce := none
    fitbit_access_token := none
    fitbit_refresh_token := none
    fitbit_expires_at := none
    fitbit_scope := none
    fitbit_nonce := none
    created_at := 0
    last_active := 0 }

/-- Witness for claim C4 at a concrete database, key, nonce and token pair. -/
theorem c4_store_then_read_token_roundtrip_witness :
    ∃ db2,
      update_strava_token [c4Row] 7 [10, 200, 31] [4] 1000 "read" (List.replicate 32 3) 9
        = Except.ok db2 ∧
      get_strava_token db2 7 (List.replicate 32 3)
        = Except.ok (some
            { access_token := [10, 200, 31]
              refresh_token := [4]
              expires_at := 1000
              scope := "read" }) :=
  c4_store_then_read_token_roundtrip [c4Row] 7 [10, 200, 31] [4] 1000 "read"
    (List.replicate 32 3) 9 (by rfl) ⟨c4Row, by simp, rfl⟩

/-- The stored token hash is never the plaintext token. -/
theorem hash_token_ne_plain (t : String) : hash_token_for_storage t ≠ t := by
  intro h
  have hlen := congrArg String.length h
  rw [hash_token_for_storage, String.length_append] at hlen
  have h7 : "tkhash:".length = 7 := rfl
  omega

/-- The stored secret hash is never the plaintext secret. -/
theorem hash_secret_ne_plain (s : String) : hash_secret s ≠ s := by
  intro h
  have hlen := congrArg String.length h
  rw [hash_secret, String.length_append] at hlen
  have h8 : "sechash:".length = 8 := rfl
  omega

/-- The stored token prefix is never the whole plaintext signed token. -/
theorem tokenPfxOf_ne_signed (tokenId serviceName : String) (perms : List String)
    (superAdmin : Bool) (expiresAt : Option Timestamp) (secret : String) :
    tokenPfxOf (signedJwtToken tokenId serviceName perms superAdmin expiresAt secret)
      ≠ signedJwtToken tokenId serviceName perms superAdmin expiresAt secret := by
  intro h
  have hlen := congrArg String.length h
  have hpfx : (tokenPfxOf (signedJwtToken tokenId serviceName perms superAdmin
        expiresAt secret)).length
      = min 12 (signedJwtToken tokenId serviceName perms superAdmin expiresAt secret).data.length := by
    show ((signedJwtToken tokenId serviceName perms superAdmin
      expiresAt secret).data.take 12).length = _
    rw [List.length_take]
  have hdl : (signedJwtToken tokenId serviceName perms superAdmin expiresAt secret).data.length
      = (signedJwtToken tokenId serviceName perms superAdmin expiresAt secret).length := rfl
  have hbig : 13 ≤ (signedJwtToken tokenId serviceName perms superAdmin expiresAt secret).length := by
    unfold signedJwtToken
    simp only [String.length_append]
    have e1 : "jwtheader.".length = 10 := rfl
    have e2 : ".".length = 1 := rfl
    have e3 : ".sig-".length = 5 := rfl
    omega
  omega

/-- Claim C7: for every issuance, the inserted admin-token row stores a hash
of the issued signed token and a separately derived hash of the per-token
JWT-signing secret (each a function of its own plaintext alone); no stored
column — token hash, secret hash or truncated prefix — equals the plaintext
signed token or the plaintext secret, and the plaintext signed token appears
(exactly) in the returned `GeneratedAdminToken` of that call. -/
theorem c7_admin_token_row_holds_hashes_only (request : CreateAdminTokenRequest)
    (uuid jwtSecret : String) (now : Timestamp) :
    (create_admin_token request uuid jwtSecret now).1.token_hash
        = hash_token_for_storage (create_admin_token request uuid jwtSecret now).2.jwt_token ∧
    (create_admin_token request uuid jwtSecret now).1.jwt_secret_hash
        = hash_secret jwtSecret ∧
    (create_admin_token request uuid jwtSecret now).1.token_hash
        ≠ (create_admin_token request uuid jwtSecret now).2.jwt_token ∧
    (create_admin_token request uuid jwtSecret now).1.jwt_secret_hash ≠ jwtSecret ∧
    (create_admin_token request uuid jwtSecret now).1.token_pfx
        ≠ (create_admin_token request uuid jwtSecret now).2.jwt_token ∧
    (create_admin_token request uuid jwtSecret now).2.jwt_token
        = signedJwtToken ("admin_" ++ uuid) request.service_name (resolvePermissions request)
            request.is_super_admin (resolveExpiry request now) jwtSecret := by
  refine ⟨rfl, rfl, ?_, ?_, ?_, rfl⟩
  · exact hash_token_ne_plain _
  · exact hash_secret_ne_plain _
  · exact tokenPfxOf_ne_signed ("admin_" ++ uuid) request.service_name
      (resolvePermissions request) request.is_super_admin (resolveExpiry request now) jwtSecret

end Pierre
